import Mathlib

/-!
Formal model of the fableford-health-go package: response types, the
BaseServer reporting backend, the HTTP handler and the HTTP client, embedded
shallowly in Lean. Machine instants are modelled as integer nanoseconds; the
request context carries no information relevant to these operations and is
modelled as Unit. External library boundaries (net/url parsing, encoding/json
decoding of arbitrary byte streams) enter as explicit parameters recording
their outcome.
-/

namespace FablefordHealth

/-- Request-scoped context (context.Context); cancellation is irrelevant to
the modelled operations. -/
def Ctx := Unit

/-- JSON values, the wire form produced by encoding/json. -/
inductive Json where
  | null
  | bool (b : Bool)
  | num (n : Int)
  | str (s : String)
  | arr (xs : List Json)
  | obj (fields : List (String × Json))
deriving Repr

/-- type HealthStatus string, restricted to the two declared constants. -/
inductive HealthStatus where
  | healthy
  | unhealthy
deriving DecidableEq, Repr

structure HealthResponse where
  status : HealthStatus
  timestamp : Int
deriving DecidableEq, Repr

structure LivenessResponse where
  alive : Bool
  timestamp : Int
deriving DecidableEq, Repr

/-- Go map[string]string: none models the nil map, some a concrete table. -/
structure ReadinessResponse where
  ready : Bool
  timestamp : Int
  checks : Option (List (String × String))
deriving DecidableEq, Repr

structure Dependency where
  name : String
  status : String
  version : String
deriving DecidableEq, Repr

structure StatusResponse where
  service_name : String
  version : String
  git_commit : String
  build_time : Option Int
  start_time : Int
  uptime_seconds : Int
  environment : String
  hostname : String
  dependencies : List Dependency
deriving DecidableEq, Repr

/-- BaseServer from server.go; CheckFunc and MetricsFunc are nil-able
function fields, BuildTime a nil-able pointer. -/
structure BaseServer where
  ServiceName : String
  Version : String
  GitCommit : String
  BuildTime : Option Int
  StartTime : Int
  Environment : String
  Hostname : String
  CheckFunc : Option (Ctx → Option (List (String × String)))
  MetricsFunc : Option (Ctx → Except String String)
  Dependencies : List Dependency

/-- NewBaseServer(serviceName, version, environment): remaining fields take
their Go zero values, StartTime := time.Now(). -/
def NewBaseServer (serviceName version environment : String) (now : Int) : BaseServer :=
  { ServiceName := serviceName
    Version := version
    GitCommit := ""
    BuildTime := none
    StartTime := now
    Environment := environment
    Hostname := ""
    CheckFunc := none
    MetricsFunc := none
    Dependencies := [] }

/-- BaseServer.GetHealth: always Healthy at the current instant, never an
error. -/
def BaseServer.GetHealth (_s : BaseServer) (_ctx : Ctx) (now : Int) :
    Except String HealthResponse :=
  .ok { status := .healthy, timestamp := now }

/-- BaseServer.GetLiveness: always alive at the current instant, never an
error. -/
def BaseServer.GetLiveness (_s : BaseServer) (_ctx : Ctx) (now : Int) :
    Except String LivenessResponse :=
  .ok { alive := true, timestamp := now }

/-- The per-value test of the readiness loop in BaseServer.GetReadiness:
a check value passes unless it differs from all four accepted literals. -/
def checkValueAccepted (status : String) : Bool :=
  !(status != "connected" && status != "available" && status != "reachable" &&
    status != "healthy")

/-- BaseServer.GetReadiness: checks := make(map[string]string) (empty,
non-nil); when CheckFunc is set it replaces checks and the loop clears ready
at the first value failing all four comparisons. Ranging over a nil map
performs no iteration. -/
def BaseServer.GetReadiness (s : BaseServer) (ctx : Ctx) (now : Int) :
    Except String ReadinessResponse :=
  match s.CheckFunc with
  | none =>
      .ok { ready := true, timestamp := now, checks := some [] }
  | some f =>
      let checks := f ctx
      let ready := match checks with
        | none => true
        | some entries => entries.all fun kv => checkValueAccepted kv.2
      .ok { ready := ready, timestamp := now, checks := checks }

/-- BaseServer.GetStatus: uptime := time.Since(s.StartTime).Seconds()
truncated by the int64 conversion toward zero; modelled as integer
nanoseconds divided by one billion with truncation toward zero. -/
def BaseServer.GetStatus (s : BaseServer) (_ctx : Ctx) (now : Int) :
    Except String StatusResponse :=
  let uptime : Int := (now - s.StartTime).tdiv 1000000000
  .ok { service_name := s.ServiceName
        version := s.Version
        git_commit := s.GitCommit
        build_time := s.BuildTime
        start_time := s.StartTime
        uptime_seconds := uptime
        environment := s.Environment
        hostname := s.Hostname
        dependencies := s.Dependencies }

/-- The built-in placeholder metrics text of BaseServer.GetMetrics. -/
def defaultMetrics : String :=
  "# HELP http_requests_total Total number of HTTP requests\n" ++
  "# TYPE http_requests_total counter\n" ++
  "http_requests_total\x7bmethod=\"GET\",status=\"200\"\x7d 0\n" ++
  "# HELP http_request_duration_seconds HTTP request latency\n" ++
  "# TYPE http_request_duration_seconds histogram\n" ++
  "http_request_duration_seconds_bucket\x7ble=\"0.005\"\x7d 0\n" ++
  "http_request_duration_seconds_bucket\x7ble=\"0.01\"\x7d 0\n" ++
  "http_request_duration_seconds_bucket\x7ble=\"0.025\"\x7d 0\n" ++
  "http_request_duration_seconds_sum 0\n" ++
  "http_request_duration_seconds_count 0\n"

/-- BaseServer.GetMetrics: delegate to MetricsFunc when set, otherwise the
fixed placeholder text. -/
def BaseServer.GetMetrics (s : BaseServer) (ctx : Ctx) : Except String String :=
  match s.MetricsFunc with
  | some f => f ctx
  | none => .ok defaultMetrics

/-! JSON wire form of the response types, following the struct tags in the
type declarations (part_001): field order is declaration order, omitempty
fields are dropped when they hold their zero value, a nil map marshals to
null. Instants marshal exactly (RFC3339Nano keeps full precision). -/

/-- Wire text of a HealthStatus value. -/
def HealthStatus.toWire : HealthStatus → String
  | .healthy => "healthy"
  | .unhealthy => "unhealthy"

def encodeHealth (h : HealthResponse) : Json :=
  .obj [("status", .str h.status.toWire), ("timestamp", .num h.timestamp)]

def encodeLiveness (l : LivenessResponse) : Json :=
  .obj [("alive", .bool l.alive), ("timestamp", .num l.timestamp)]

/-- map[string]string marshals to null when nil, else to an object. -/
def encodeChecks : Option (List (String × String)) → Json
  | none => .null
  | some entries => .obj (entries.map fun kv => (kv.1, .str kv.2))

def encodeReadiness (r : ReadinessResponse) : Json :=
  .obj [("ready", .bool r.ready), ("timestamp", .num r.timestamp),
        ("checks", encodeChecks r.checks)]

/-- Dependency: version carries omitempty. -/
def encodeDependency (d : Dependency) : Json :=
  .obj ([("name", .str d.name), ("status", .str d.status)] ++
    (if d.version = "" then [] else [("version", .str d.version)]))

/-- StatusResponse: git_commit, build_time, hostname and dependencies carry
omitempty (dependencies is dropped when nil or empty). -/
def encodeStatus (s : StatusResponse) : Json :=
  .obj ([("service_name", .str s.service_name), ("version", .str s.version)] ++
    (if s.git_commit = "" then [] else [("git_commit", .str s.git_commit)]) ++
    (match s.build_time with
     | none => []
     | some t => [("build_time", .num t)]) ++
    [("start_time", .num s.start_time),
     ("uptime_seconds", .num s.uptime_seconds),
     ("environment", .str s.environment)] ++
    (if s.hostname = "" then [] else [("hostname", .str s.hostname)]) ++
    (if s.dependencies = [] then []
     else [("dependencies", .arr (s.dependencies.map encodeDependency))]))

/-! Decoding, as encoding/json unmarshals into the response structs: a key
absent from the object leaves the Go zero value, a present key must carry a
value of the field's shape. -/

/-- Field lookup on an object. -/
def Json.getField : Json → String → Option Json
  | .obj fields, k => fields.lookup k
  | _, _ => none

/-- A string field: absent yields the zero value "". -/
def getStr (j : Json) (k : String) : Option String :=
  match j.getField k with
  | none => some ""
  | some (.str s) => some s
  | some _ => none

/-- A numeric (instant or integer) field: absent yields 0. -/
def getNum (j : Json) (k : String) : Option Int :=
  match j.getField k with
  | none => some 0
  | some (.num n) => some n
  | some _ => none

/-- A bool field: absent yields false. -/
def getBool (j : Json) (k : String) : Option Bool :=
  match j.getField k with
  | none => some false
  | some (.bool b) => some b
  | some _ => none

/-- A *time.Time field: absent or null yields the nil pointer. -/
def getOptNum (j : Json) (k : String) : Option (Option Int) :=
  match j.getField k with
  | none => some none
  | some .null => some none
  | some (.num n) => some (some n)
  | some _ => none

def decodeHealth (j : Json) : Option HealthResponse := do
  let s ← getStr j "status"
  let st ← match s with
    | "healthy" => some HealthStatus.healthy
    | "unhealthy" => some HealthStatus.unhealthy
    | _ => none
  let t ← getNum j "timestamp"
  pure { status := st, timestamp := t }

def decodeLiveness (j : Json) : Option LivenessResponse := do
  let a ← getBool j "alive"
  let t ← getNum j "timestamp"
  pure { alive := a, timestamp := t }

/-- Reads the entries of a JSON object back as a string table; any
non-string value is a decode failure. -/
def decodeChecksEntries : List (String × Json) → Option (List (String × String))
  | [] => some []
  | kv :: rest =>
      match kv.2 with
      | .str s => (decodeChecksEntries rest).map fun tl => (kv.1, s) :: tl
      | _ => none

/-- A map[string]string field: absent or null yields the nil map. -/
def getChecks (j : Json) (k : String) : Option (Option (List (String × String))) :=
  match j.getField k with
  | none => some none
  | some .null => some none
  | some (.obj fields) => (decodeChecksEntries fields).map some
  | some _ => none

def decodeReadiness (j : Json) : Option ReadinessResponse := do
  let r ← getBool j "ready"
  let t ← getNum j "timestamp"
  let c ← getChecks j "checks"
  pure { ready := r, timestamp := t, checks := c }

def decodeDependency (j : Json) : Option Dependency := do
  let n ← getStr j "name"
  let s ← getStr j "status"
  let v ← getStr j "version"
  pure { name := n, status := s, version := v }

/-- Reads a JSON array back as a dependency list, element by element. -/
def decodeDepsList : List Json → Option (List Dependency)
  | [] => some []
  | j :: rest => do
      let d ← decodeDependency j
      let tl ← decodeDepsList rest
      pure (d :: tl)

/-- A []Dependency field: absent or null yields the nil slice. -/
def getDeps (j : Json) (k : String) : Option (List Dependency) :=
  match j.getField k with
  | none => some []
  | some .null => some []
  | some (.arr xs) => decodeDepsList xs
  | some _ => none

def decodeStatus (j : Json) : Option StatusResponse := do
  let sn ← getStr j "service_name"
  let v ← getStr j "version"
  let gc ← getStr j "git_commit"
  let bt ← getOptNum j "build_time"
  let st ← getNum j "start_time"
  let up ← getNum j "uptime_seconds"
  let env ← getStr j "environment"
  let hn ← getStr j "hostname"
  let deps ← getDeps j "dependencies"
  pure { service_name := sn, version := v, git_commit := gc, build_time := bt,
         start_time := st, uptime_seconds := up, environment := env,
         hostname := hn, dependencies := deps }

/-! The HTTP handler (server.go): each route invokes the backend and maps
the typed result to a status code and body. -/

/-- A response body: JSON for the four structured routes, raw text for
metrics. -/
inductive Body where
  | json (j : Json)
  | text (s : String)
deriving Repr

structure HttpResponse where
  statusCode : Nat
  contentType : String
  body : Body
deriving Repr

/-- writeJSON: Content-Type application/json, given status, encoded body. -/
def writeJSON (status : Nat) (j : Json) : HttpResponse :=
  { statusCode := status, contentType := "application/json", body := .json j }

/-- writeError: Content-Type application/json, given status, body
an object with the single key error holding the message. -/
def writeError (status : Nat) (errMsg : String) : HttpResponse :=
  { statusCode := status, contentType := "application/json",
    body := .json (.obj [("error", .str errMsg)]) }

/-- handleGetHealth: 500 on backend error, else 200, downgraded to 503 when
the status is Unhealthy. -/
def handleGetHealth (res : Except String HealthResponse) : HttpResponse :=
  match res with
  | .error e => writeError 500 e
  | .ok resp =>
      let status := if resp.status = .unhealthy then 503 else 200
      writeJSON status (encodeHealth resp)

/-- handleGetLiveness: 500 on backend error, else 200, 503 when not alive. -/
def handleGetLiveness (res : Except String LivenessResponse) : HttpResponse :=
  match res with
  | .error e => writeError 500 e
  | .ok resp =>
      let status := if !resp.alive then 503 else 200
      writeJSON status (encodeLiveness resp)

/-- handleGetReadiness: 500 on backend error, else 200, 503 when not
ready. -/
def handleGetReadiness (res : Except String ReadinessResponse) : HttpResponse :=
  match res with
  | .error e => writeError 500 e
  | .ok resp =>
      let status := if !resp.ready then 503 else 200
      writeJSON status (encodeReadiness resp)

/-- handleGetStatus: 500 on backend error, else always 200. -/
def handleGetStatus (res : Except String StatusResponse) : HttpResponse :=
  match res with
  | .error e => writeError 500 e
  | .ok resp => writeJSON 200 (encodeStatus resp)

/-- handleGetMetrics: 500 on backend error, else 200 with the text body and
the Prometheus content type. -/
def handleGetMetrics (res : Except String String) : HttpResponse :=
  match res with
  | .error e => writeError 500 e
  | .ok metrics =>
      { statusCode := 200, contentType := "text/plain; version=0.0.4",
        body := .text metrics }

/-! The HTTP client (client.go). The transport (httpClient.Do) and the
net/url parser are external collaborators; their outcomes enter as explicit
arguments: a received response is a status code with a raw body string, and
decoding a body via encoding/json is a caller-visible function from body
text to a decode outcome. -/

/-- Errors a client call can surface, mirroring the fmt.Errorf messages:
an unexpected status carries the code and raw body text, a decode failure
wraps the json error. -/
inductive ClientError where
  | unexpectedStatus (code : Nat) (body : String)
  | decodeFailure (cause : String)
deriving DecidableEq, Repr

/-- The message text of a ClientError, as fmt.Errorf formats it. -/
def ClientError.message : ClientError → String
  | .unexpectedStatus code body =>
      "unexpected status code " ++ toString code ++ ": " ++ body
  | .decodeFailure cause => "decoding response: " ++ cause

/-- client.GetHealth on a received response: any status other than 200 or
503 is an error carrying code and body; otherwise the body is JSON-decoded
into a HealthResponse, a decode failure being its own error. -/
def clientGetHealth (dec : String → Except String HealthResponse)
    (code : Nat) (body : String) : Except ClientError HealthResponse :=
  if code ≠ 200 ∧ code ≠ 503 then
    .error (.unexpectedStatus code body)
  else
    match dec body with
    | .error e => .error (.decodeFailure e)
    | .ok resp => .ok resp

/-- client.GetLiveness on a received response; same acceptance rule as
clientGetHealth with the liveness payload. -/
def clientGetLiveness (dec : String → Except String LivenessResponse)
    (code : Nat) (body : String) : Except ClientError LivenessResponse :=
  if code ≠ 200 ∧ code ≠ 503 then
    .error (.unexpectedStatus code body)
  else
    match dec body with
    | .error e => .error (.decodeFailure e)
    | .ok resp => .ok resp

/-- client.GetReadiness on a received response; same acceptance rule with
the readiness payload. -/
def clientGetReadiness (dec : String → Except String ReadinessResponse)
    (code : Nat) (body : String) : Except ClientError ReadinessResponse :=
  if code ≠ 200 ∧ code ≠ 503 then
    .error (.unexpectedStatus code body)
  else
    match dec body with
    | .error e => .error (.decodeFailure e)
    | .ok resp => .ok resp

/-- client.GetStatus on a received response: only 200 is accepted. -/
def clientGetStatus (dec : String → Except String StatusResponse)
    (code : Nat) (body : String) : Except ClientError StatusResponse :=
  if code ≠ 200 then
    .error (.unexpectedStatus code body)
  else
    match dec body with
    | .error e => .error (.decodeFailure e)
    | .ok resp => .ok resp

/-- client.GetMetrics on a received response: only 200 is accepted and the
raw body text is returned unmodified. -/
def clientGetMetrics (code : Nat) (body : String) : Except ClientError String :=
  if code ≠ 200 then
    .error (.unexpectedStatus code body)
  else
    .ok body

/-- The client options exported by the package: WithHTTPClient replaces the
whole HTTP executor (carrying whatever timeout that executor has),
WithTimeout sets the timeout on the current executor. Durations are integer
nanoseconds. -/
inductive ClientOption where
  | withHTTPClient (timeout : Int)
  | withTimeout (timeout : Int)
deriving DecidableEq, Repr

/-- Observable client state: the stored base URL and the effective request
timeout of its HTTP executor. -/
structure ClientState where
  baseURL : String
  timeout : Int
deriving DecidableEq, Repr

def applyOption (c : ClientState) : ClientOption → ClientState
  | .withHTTPClient t => { c with timeout := t }
  | .withTimeout t => { c with timeout := t }

/-- Thirty seconds in nanoseconds, the default http.Client timeout set by
NewClient. -/
def defaultTimeout : Int := 30000000000

/-- NewClient: url.Parse is external; parsedURL is its outcome (none when
parsing failed, some of the re-serialized URL on success). A parse failure
is a construction error; on success the client starts with a 30-second
timeout and the options are applied in order. -/
def NewClient (parsedURL : Option String) (opts : List ClientOption) :
    Except String ClientState :=
  match parsedURL with
  | none => .error "invalid base URL"
  | some u =>
      .ok (opts.foldl applyOption { baseURL := u, timeout := defaultTimeout })

/-! Concrete instances used to evaluate the theorems on closed inputs. -/

/-- A server whose check provider reports two passing dependencies. -/
def c1Server : BaseServer :=
  { NewBaseServer "svc" "1.0.0" "production" 0 with
    CheckFunc := some fun _ =>
      some [("database", "connected"), ("cache", "available")] }

/-- The readiness response c1Server produces at instant 0. -/
def c1Ready : ReadinessResponse :=
  { ready := true, timestamp := 0,
    checks := some [("database", "connected"), ("cache", "available")] }

/-- A server with no metrics provider. -/
def c4Server : BaseServer := NewBaseServer "svc" "1.0.0" "production" 0

/-- A server whose metrics provider fails. -/
def c6Server : BaseServer :=
  { NewBaseServer "svc" "1.0.0" "production" 0 with
    MetricsFunc := some fun _ => .error "scrape failed" }

/-- A server started two seconds after epoch instant 0. -/
def c5Server : BaseServer := NewBaseServer "svc" "1.0.0" "production" 2000000000

/-- A server started at instant 0. -/
def c5OkServer : BaseServer := NewBaseServer "svc" "1.0.0" "production" 0

/-- The status c5OkServer reports 3600.5 seconds after start. -/
def c5Resp : StatusResponse :=
  { service_name := "svc", version := "1.0.0", git_commit := "",
    build_time := none, start_time := 0, uptime_seconds := 3600,
    environment := "production", hostname := "", dependencies := [] }

/-- The status c5Server reports two seconds before its start instant:
-2.0 seconds of elapsed time truncate toward zero to -2. -/
def c5NegResp : StatusResponse :=
  { service_name := "svc", version := "1.0.0", git_commit := "",
    build_time := none, start_time := 2000000000, uptime_seconds := -2,
    environment := "production", hostname := "", dependencies := [] }

/-! Helper lemmas. -/

/-- applyOption never touches the stored base URL. -/
theorem foldl_applyOption_baseURL (opts : List ClientOption) (c : ClientState) :
    (opts.foldl applyOption c).baseURL = c.baseURL := by
  induction opts generalizing c with
  | nil => rfl
  | cons o tl ih =>
      rw [List.foldl_cons, ih]
      cases o <;> rfl

/-- The wire form of a readiness response always carries the checks key,
holding the encoded table. -/
theorem encodeReadiness_getField_checks (r : ReadinessResponse) :
    (encodeReadiness r).getField "checks" = some (encodeChecks r.checks) := by
  rfl

theorem decodeHealth_encodeHealth (h : HealthResponse) :
    decodeHealth (encodeHealth h) = some h := by
  obtain ⟨st, t⟩ := h
  cases st <;> rfl

theorem decodeLiveness_encodeLiveness (l : LivenessResponse) :
    decodeLiveness (encodeLiveness l) = some l := by
  obtain ⟨a, t⟩ := l
  rfl

theorem decodeChecksEntries_roundtrip (entries : List (String × String)) :
    decodeChecksEntries (entries.map fun kv => (kv.1, Json.str kv.2)) =
      some entries := by
  induction entries with
  | nil => rfl
  | cons hd tl ih => simp [decodeChecksEntries, ih]

theorem decodeReadiness_encodeReadiness (r : ReadinessResponse) :
    decodeReadiness (encodeReadiness r) = some r := by
  obtain ⟨rd, t, c⟩ := r
  cases c with
  | none => rfl
  | some entries =>
      simp [encodeReadiness, decodeReadiness, getBool, getNum, getChecks,
        Json.getField, List.lookup, encodeChecks, decodeChecksEntries_roundtrip]

theorem decodeDependency_encodeDependency (d : Dependency) :
    decodeDependency (encodeDependency d) = some d := by
  obtain ⟨n, s, v⟩ := d
  by_cases hv : v = ""
  · subst hv
    rfl
  · simp only [encodeDependency, if_neg hv]
    simp [decodeDependency, getStr, Json.getField, List.lookup]

theorem decodeDepsList_roundtrip (l : List Dependency) :
    decodeDepsList (l.map encodeDependency) = some l := by
  induction l with
  | nil => rfl
  | cons hd tl ih =>
      simp [decodeDepsList, decodeDependency_encodeDependency, ih]

theorem decodeStatus_encodeStatus (s : StatusResponse) :
    decodeStatus (encodeStatus s) = some s := by
  obtain ⟨sn, v, gc, bt, st, up, env, hn, deps⟩ := s
  by_cases hgc : gc = "" <;> cases bt <;> by_cases hhn : hn = "" <;>
    by_cases hdeps : deps = [] <;>
    simp [encodeStatus, decodeStatus, hgc, hhn, hdeps, getStr, getNum,
      getOptNum, getDeps, Json.getField, List.lookup, decodeDepsList_roundtrip]

theorem checkValueAccepted_iff (v : String) :
    checkValueAccepted v = true ↔
      v = "connected" ∨ v = "available" ∨ v = "reachable" ∨ v = "healthy" := by
  simp only [checkValueAccepted, Bool.not_eq_true', Bool.and_eq_false_iff,
    bne_eq_false_iff_eq]
  constructor
  · rintro (h | h | h | h) <;> tauto
  · rintro (h | h | h | h) <;> tauto

/-- C1: BaseServer.GetReadiness never fails; its ready flag is true exactly
when every value of the returned checks mapping is one of the four accepted
literals (vacuously true for an empty or nil mapping), the mapping is the
one produced by the configured check provider, and with no provider the
mapping is empty and ready is true. -/
theorem c1_readiness_ready_iff_all_accepted (s : BaseServer) (ctx : Ctx)
    (now : Int) (r : ReadinessResponse) (h : s.GetReadiness ctx now = .ok r) :
    ((r.ready = true) ↔ ∀ kv ∈ r.checks.getD [],
        kv.2 = "connected" ∨ kv.2 = "available" ∨ kv.2 = "reachable" ∨
        kv.2 = "healthy") ∧
    (∀ f, s.CheckFunc = some f → r.checks = f ctx) ∧
    (s.CheckFunc = none → r.ready = true ∧ r.checks = some []) := by
  cases hcf : s.CheckFunc with
  | none =>
      rw [BaseServer.GetReadiness, hcf] at h
      simp only [Except.ok.injEq] at h
      subst h
      simp
  | some f =>
      rw [BaseServer.GetReadiness, hcf] at h
      simp only [Except.ok.injEq] at h
      subst h
      refine ⟨?_, by simp [hcf], by simp [hcf]⟩
      cases hfc : f ctx with
      | none => simp
      | some entries =>
          simp only [Option.getD_some, List.all_eq_true]
          constructor
          · intro hall kv hkv
            exact (checkValueAccepted_iff kv.2).mp (hall kv hkv)
          · intro hall kv hkv
            exact (checkValueAccepted_iff kv.2).mpr (hall kv hkv)

/-- C1 witness: a server whose provider reports one connected and one
available dependency is ready. -/
theorem c1_witness :
    c1Server.GetReadiness () 0 = .ok c1Ready ∧
    ((c1Ready.ready = true) ↔ ∀ kv ∈ c1Ready.checks.getD [],
        kv.2 = "connected" ∨ kv.2 = "available" ∨ kv.2 = "reachable" ∨
        kv.2 = "healthy") :=
  ⟨rfl, (c1_readiness_ready_iff_all_accepted c1Server () 0 c1Ready rfl).1⟩

/-- C2: the /health route answers 200 for a Healthy result, 503 for an
Unhealthy one, and 500 with the error object for a failing backend. -/
theorem c2_health_route_codes (res : Except String HealthResponse) :
    (∀ r, res = .ok r → r.status = .healthy →
      (handleGetHealth res).statusCode = 200) ∧
    (∀ r, res = .ok r → r.status = .unhealthy →
      (handleGetHealth res).statusCode = 503) ∧
    (∀ e, res = .error e →
      (handleGetHealth res).statusCode = 500 ∧
      (handleGetHealth res).body = .json (.obj [("error", .str e)]) ∧
      (handleGetHealth res).contentType = "application/json") := by
  refine ⟨?_, ?_, ?_⟩
  · rintro r rfl hs
    simp [handleGetHealth, writeJSON, hs]
  · rintro r rfl hs
    simp [handleGetHealth, writeJSON, hs]
  · rintro e rfl
    simp [handleGetHealth, writeError]

/-- C2 witness: concrete healthy, unhealthy and failing backend results. -/
theorem c2_witness :
    (handleGetHealth (.ok { status := .healthy, timestamp := 5 })).statusCode
      = 200 ∧
    (handleGetHealth (.ok { status := .unhealthy, timestamp := 5 })).statusCode
      = 503 ∧
    (handleGetHealth (.error "boom")).statusCode = 500 ∧
    (handleGetHealth (.error "boom")).body =
      .json (.obj [("error", .str "boom")]) :=
  ⟨(c2_health_route_codes (.ok { status := .healthy, timestamp := 5 })).1
      { status := .healthy, timestamp := 5 } rfl rfl,
   (c2_health_route_codes (.ok { status := .unhealthy, timestamp := 5 })).2.1
      { status := .unhealthy, timestamp := 5 } rfl rfl,
   ((c2_health_route_codes (.error "boom")).2.2 "boom" rfl).1,
   ((c2_health_route_codes (.error "boom")).2.2 "boom" rfl).2.1⟩

/-- C4: with no metrics provider GetMetrics yields the placeholder text and
no error, with a provider it yields the provider outcome unchanged, and the
metrics route serves a successful text with status 200 and the Prometheus
content type. -/
theorem c4_metrics_placeholder (s : BaseServer) (ctx : Ctx) :
    (s.MetricsFunc = none → s.GetMetrics ctx = .ok defaultMetrics) ∧
    (∀ f, s.MetricsFunc = some f → s.GetMetrics ctx = f ctx) ∧
    (∀ m, handleGetMetrics (.ok m) =
      { statusCode := 200, contentType := "text/plain; version=0.0.4",
        body := .text m }) := by
  refine ⟨?_, ?_, ?_⟩
  · intro hmf
    rw [BaseServer.GetMetrics, hmf]
  · intro f hmf
    rw [BaseServer.GetMetrics, hmf]
  · intro m
    rfl

/-- C4 witness: a provider-free server serves the placeholder text. -/
theorem c4_witness :
    c4Server.GetMetrics () = .ok defaultMetrics ∧
    handleGetMetrics (c4Server.GetMetrics ()) =
      { statusCode := 200, contentType := "text/plain; version=0.0.4",
        body := .text defaultMetrics } := by
  have h1 := (c4_metrics_placeholder c4Server ()).1 rfl
  have h2 := (c4_metrics_placeholder c4Server ()).2.2 defaultMetrics
  exact ⟨h1, by rw [h1]; exact h2⟩

/-- C6: the default backend never fails health, liveness, readiness or
status; health is always Healthy at the query instant, liveness always
alive; a metrics error can only arise from a configured provider
returning that error. -/
theorem c6_default_backend_total (s : BaseServer) (ctx : Ctx) (now : Int) :
    s.GetHealth ctx now = .ok { status := .healthy, timestamp := now } ∧
    s.GetLiveness ctx now = .ok { alive := true, timestamp := now } ∧
    (∃ r, s.GetReadiness ctx now = .ok r) ∧
    (∃ st, s.GetStatus ctx now = .ok st) ∧
    (∀ e, s.GetMetrics ctx = .error e →
      ∃ f, s.MetricsFunc = some f ∧ f ctx = .error e) := by
  refine ⟨rfl, rfl, ?_, ⟨_, rfl⟩, ?_⟩
  · rw [BaseServer.GetReadiness]
    cases s.CheckFunc with
    | none => exact ⟨_, rfl⟩
    | some f => exact ⟨_, rfl⟩
  · intro e he
    rw [BaseServer.GetMetrics] at he
    cases hmf : s.MetricsFunc with
    | none => rw [hmf] at he; cases he
    | some f => rw [hmf] at he; exact ⟨f, rfl, he⟩

/-- C6 witness: a freshly constructed server with a failing provider is
total on the four queries and its metrics error traces to the provider. -/
theorem c6_witness :
    c6Server.GetHealth () 7 = .ok { status := .healthy, timestamp := 7 } ∧
    c6Server.GetLiveness () 7 = .ok { alive := true, timestamp := 7 } ∧
    (∃ f, c6Server.MetricsFunc = some f ∧ f () = .error "scrape failed") := by
  have h := c6_default_backend_total c6Server () 7
  exact ⟨h.1, h.2.1, h.2.2.2.2 "scrape failed" rfl⟩

/-- C3: the three JSON client calls accept 200 and 503 alike, returning the
decoded body; any other status yields the error carrying the code and raw
body; a decode failure on an accepted status is an error of a different
shape than a status error. -/
theorem c3_client_accepts_200_and_503 (code : Nat) (body : String)
    (decH : String → Except String HealthResponse)
    (decL : String → Except String LivenessResponse)
    (decR : String → Except String ReadinessResponse) :
    ((code = 200 ∨ code = 503) →
      (∀ h, decH body = .ok h → clientGetHealth decH code body = .ok h) ∧
      (∀ l, decL body = .ok l → clientGetLiveness decL code body = .ok l) ∧
      (∀ r, decR body = .ok r → clientGetReadiness decR code body = .ok r) ∧
      (∀ e, decH body = .error e →
        clientGetHealth decH code body = .error (.decodeFailure e)) ∧
      (∀ e, decL body = .error e →
        clientGetLiveness decL code body = .error (.decodeFailure e)) ∧
      (∀ e, decR body = .error e →
        clientGetReadiness decR code body = .error (.decodeFailure e))) ∧
    (¬(code = 200 ∨ code = 503) →
      clientGetHealth decH code body = .error (.unexpectedStatus code body) ∧
      clientGetLiveness decL code body =
        .error (.unexpectedStatus code body) ∧
      clientGetReadiness decR code body =
        .error (.unexpectedStatus code body)) ∧
    (∀ e sc b, (ClientError.decodeFailure e) ≠ .unexpectedStatus sc b) := by
  have hcond : (code ≠ 200 ∧ code ≠ 503) ↔ ¬(code = 200 ∨ code = 503) := by
    tauto
  refine ⟨?_, ?_, by intro e sc b hne; cases hne⟩
  · intro hacc
    refine ⟨?_, ?_, ?_, ?_, ?_, ?_⟩ <;> intro x hx
    · rw [clientGetHealth, if_neg (by tauto), hx]
    · rw [clientGetLiveness, if_neg (by tauto), hx]
    · rw [clientGetReadiness, if_neg (by tauto), hx]
    · rw [clientGetHealth, if_neg (by tauto), hx]
    · rw [clientGetLiveness, if_neg (by tauto), hx]
    · rw [clientGetReadiness, if_neg (by tauto), hx]
  · intro hrej
    exact ⟨by rw [clientGetHealth, if_pos (hcond.mpr hrej)],
           by rw [clientGetLiveness, if_pos (hcond.mpr hrej)],
           by rw [clientGetReadiness, if_pos (hcond.mpr hrej)]⟩

/-- C3 witness: a decodable 503 body is a success; a 404 is a status
error. -/
theorem c3_witness :
    clientGetHealth (fun _ => .ok { status := .unhealthy, timestamp := 1 })
      503 "payload" = .ok { status := .unhealthy, timestamp := 1 } ∧
    clientGetHealth (fun _ => .ok { status := .healthy, timestamp := 1 })
      404 "Not Found" = .error (.unexpectedStatus 404 "Not Found") ∧
    clientGetHealth (fun _ => .error "bad json") 200 "x" =
      .error (.decodeFailure "bad json") :=
  ⟨((c3_client_accepts_200_and_503 503 "payload"
        (fun _ => .ok { status := .unhealthy, timestamp := 1 })
        (fun _ => .ok { alive := true, timestamp := 1 })
        (fun _ => .ok { ready := true, timestamp := 1, checks := none })).1
      (Or.inr rfl)).1 { status := .unhealthy, timestamp := 1 } rfl,
   ((c3_client_accepts_200_and_503 404 "Not Found"
        (fun _ => .ok { status := .healthy, timestamp := 1 })
        (fun _ => .ok { alive := true, timestamp := 1 })
        (fun _ => .ok { ready := true, timestamp := 1, checks := none })).2.1
      (by decide)).1,
   ((c3_client_accepts_200_and_503 200 "x"
        (fun _ => .error "bad json")
        (fun _ => .ok { alive := true, timestamp := 1 })
        (fun _ => .ok { ready := true, timestamp := 1, checks := none })).1
      (Or.inl rfl)).2.2.2.1 "bad json" rfl⟩

/-- C5 amended: for every server state and every query instant, GetStatus
reports uptime_seconds as the elapsed time now minus start truncated toward
zero to whole seconds: when the query instant is at or after start this is
the non-negative floor of the elapsed seconds, and when it is before start
the (negative or zero) value rounds up toward zero. Non-negativity as
literally claimed fails: a start instant after the query instant produces a
negative uptime. -/
theorem c5_uptime_truncation (s : BaseServer) (ctx : Ctx) (now : Int)
    (r : StatusResponse) (h : s.GetStatus ctx now = .ok r) :
    (s.StartTime ≤ now →
      0 ≤ r.uptime_seconds ∧
      r.uptime_seconds * 1000000000 ≤ now - s.StartTime ∧
      now - s.StartTime < (r.uptime_seconds + 1) * 1000000000) ∧
    (now ≤ s.StartTime →
      r.uptime_seconds ≤ 0 ∧
      now - s.StartTime ≤ r.uptime_seconds * 1000000000 ∧
      (r.uptime_seconds - 1) * 1000000000 < now - s.StartTime) := by
  rw [BaseServer.GetStatus] at h
  simp only [Except.ok.injEq] at h
  subst h
  simp only
  constructor
  · intro hle
    have hd : (0:Int) ≤ now - s.StartTime := by omega
    rw [Int.tdiv_eq_ediv hd (by norm_num)]
    omega
  · intro hge
    have hd : (0:Int) ≤ s.StartTime - now := by omega
    have hneg : now - s.StartTime = -(s.StartTime - now) := by ring
    rw [hneg, Int.neg_tdiv, Int.tdiv_eq_ediv hd (by norm_num)]
    omega

/-- C5 witness: a server started at instant 0 and queried 3600.5 seconds
later reports 3600 whole seconds of uptime; a server started two seconds
after its query instant reports -2, the toward-zero truncation of the
negative elapsed time. -/
theorem c5_witness :
    (0 ≤ c5Resp.uptime_seconds ∧
     c5Resp.uptime_seconds * 1000000000 ≤ 3600500000000 - c5OkServer.StartTime ∧
     3600500000000 - c5OkServer.StartTime <
       (c5Resp.uptime_seconds + 1) * 1000000000) ∧
    (c5NegResp.uptime_seconds ≤ 0 ∧
     0 - c5Server.StartTime ≤ c5NegResp.uptime_seconds * 1000000000 ∧
     (c5NegResp.uptime_seconds - 1) * 1000000000 < 0 - c5Server.StartTime) :=
  ⟨(c5_uptime_truncation c5OkServer () 3600500000000 c5Resp rfl).1 (by decide),
   (c5_uptime_truncation c5Server () 0 c5NegResp rfl).2 (by decide)⟩

/-- C5 counterexample: with a start instant two seconds after the query
instant, GetStatus reports uptime_seconds = -2, a negative value. -/
theorem c5_counterexample :
    c5Server.GetStatus () 0 =
      .ok { service_name := "svc", version := "1.0.0", git_commit := "",
            build_time := none, start_time := 2000000000,
            uptime_seconds := -2, environment := "production", hostname := "",
            dependencies := [] } ∧
    ¬(0 ≤ (-2 : Int)) :=
  ⟨rfl, by decide⟩

/-- C8: the metrics client accepts exactly status 200, returning the raw
body unchanged (the empty body included); every other status yields an
error carrying the code and raw body, whose message is the concatenation
holding both. -/
theorem c8_client_metrics (code : Nat) (body : String) :
    (code = 200 → clientGetMetrics code body = .ok body) ∧
    (code ≠ 200 →
      clientGetMetrics code body = .error (.unexpectedStatus code body) ∧
      (ClientError.unexpectedStatus code body).message =
        "unexpected status code " ++ toString code ++ ": " ++ body) := by
  constructor
  · rintro rfl
    rfl
  · intro hne
    exact ⟨by rw [clientGetMetrics, if_pos hne], rfl⟩

/-- C8 witness: a 200 with empty body succeeds with the empty string; a 404
with body Not Found yields the status error and its message text. -/
theorem c8_witness :
    clientGetMetrics 200 "" = .ok "" ∧
    clientGetMetrics 404 "Not Found" =
      .error (.unexpectedStatus 404 "Not Found") ∧
    (ClientError.unexpectedStatus 404 "Not Found").message =
      "unexpected status code " ++ toString 404 ++ ": " ++ "Not Found" :=
  ⟨(c8_client_metrics 200 "").1 rfl,
   ((c8_client_metrics 404 "Not Found").2 (by decide)).1,
   ((c8_client_metrics 404 "Not Found").2 (by decide)).2⟩

/-- C9: NewClient fails exactly when the base URL fails to parse; on
success it stores the parsed URL, starts from a 30-second timeout when no
option is given, and the last timeout or HTTP-client option wins. -/
theorem c9_newclient_url_and_timeout (p : Option String) (u : String)
    (opts : List ClientOption) :
    ((∃ e, NewClient p opts = .error e) ↔ p = none) ∧
    (∀ v, p = some v → ∃ c, NewClient p opts = .ok c ∧ c.baseURL = v) ∧
    (∀ c, NewClient (some u) [] = .ok c → c.timeout = defaultTimeout) ∧
    (∀ c t, NewClient (some u) (opts ++ [.withTimeout t]) = .ok c →
      c.timeout = t) ∧
    (∀ c t, NewClient (some u) (opts ++ [.withHTTPClient t]) = .ok c →
      c.timeout = t) := by
  refine ⟨⟨?_, ?_⟩, ?_, ?_, ?_, ?_⟩
  · rintro ⟨e, he⟩
    cases p with
    | none => rfl
    | some v => rw [NewClient] at he; cases he
  · rintro rfl
    exact ⟨_, rfl⟩
  · rintro v rfl
    exact ⟨_, rfl, foldl_applyOption_baseURL opts _⟩
  · intro c hc
    rw [NewClient] at hc
    simp only [List.foldl_nil, Except.ok.injEq] at hc
    subst hc
    rfl
  · intro c t hc
    rw [NewClient] at hc
    simp only [List.foldl_append, List.foldl_cons, List.foldl_nil,
      Except.ok.injEq] at hc
    subst hc
    rfl
  · intro c t hc
    rw [NewClient] at hc
    simp only [List.foldl_append, List.foldl_cons, List.foldl_nil,
      Except.ok.injEq] at hc
    subst hc
    rfl

/-- C9 witness: a failed parse is a construction error; a parsed URL with a
5-second timeout option yields a client with that timeout, and with no
option the default 30 seconds. -/
theorem c9_witness :
    ((∃ e, NewClient none [] = .error e) ↔ (none : Option String) = none) ∧
    (∃ c, NewClient (some "http://localhost:8080") [] = .ok c ∧
      c.baseURL = "http://localhost:8080") ∧
    (∀ c, NewClient (some "http://localhost:8080") [] = .ok c →
      c.timeout = defaultTimeout) ∧
    (∀ c, NewClient (some "http://localhost:8080")
        ([] ++ [.withTimeout 5000000000]) = .ok c →
      c.timeout = 5000000000) :=
  ⟨(c9_newclient_url_and_timeout none "http://localhost:8080" []).1,
   (c9_newclient_url_and_timeout (some "http://localhost:8080")
      "http://localhost:8080" []).2.1 "http://localhost:8080" rfl,
   fun c hc => (c9_newclient_url_and_timeout (some "http://localhost:8080")
      "http://localhost:8080" []).2.2.1 c hc,
   fun c hc => (c9_newclient_url_and_timeout (some "http://localhost:8080")
      "http://localhost:8080" []).2.2.2.1 c 5000000000 hc⟩

/-- C7: encoding any of the four response records to its JSON wire form and
decoding it back restores the record field for field, and the omitempty
fields (git_commit, build_time, hostname, dependencies, a dependency
version) are absent from the wire form when unset, not emitted as null. -/
theorem c7_wire_roundtrip (h : HealthResponse) (l : LivenessResponse)
    (r : ReadinessResponse) (s : StatusResponse) (d : Dependency) :
    decodeHealth (encodeHealth h) = some h ∧
    decodeLiveness (encodeLiveness l) = some l ∧
    decodeReadiness (encodeReadiness r) = some r ∧
    decodeStatus (encodeStatus s) = some s ∧
    (s.git_commit = "" → (encodeStatus s).getField "git_commit" = none) ∧
    (s.build_time = none → (encodeStatus s).getField "build_time" = none) ∧
    (s.hostname = "" → (encodeStatus s).getField "hostname" = none) ∧
    (s.dependencies = [] → (encodeStatus s).getField "dependencies" = none) ∧
    (d.version = "" → (encodeDependency d).getField "version" = none) := by
  refine ⟨decodeHealth_encodeHealth h, decodeLiveness_encodeLiveness l,
    decodeReadiness_encodeReadiness r, decodeStatus_encodeStatus s,
    ?_, ?_, ?_, ?_, ?_⟩
  · intro hgc
    by_cases hhn : s.hostname = "" <;> cases hbt : s.build_time <;>
      by_cases hdeps : s.dependencies = [] <;>
      simp [encodeStatus, Json.getField, List.lookup, hgc, hhn, hbt, hdeps]
  · intro hbt
    by_cases hgc : s.git_commit = "" <;> by_cases hhn : s.hostname = "" <;>
      by_cases hdeps : s.dependencies = [] <;>
      simp [encodeStatus, Json.getField, List.lookup, hgc, hhn, hbt, hdeps]
  · intro hhn
    by_cases hgc : s.git_commit = "" <;> cases hbt : s.build_time <;>
      by_cases hdeps : s.dependencies = [] <;>
      simp [encodeStatus, Json.getField, List.lookup, hgc, hhn, hbt, hdeps]
  · intro hdeps
    by_cases hgc : s.git_commit = "" <;> cases hbt : s.build_time <;>
      by_cases hhn : s.hostname = "" <;>
      simp [encodeStatus, Json.getField, List.lookup, hgc, hhn, hbt, hdeps]
  · intro hv
    simp [encodeDependency, Json.getField, List.lookup, hv]

/-- C7 witness: concrete records, one with every optional field unset,
round-trip through the wire form, and the unset fields are absent. -/
theorem c7_witness :
    decodeHealth (encodeHealth { status := .healthy, timestamp := 3 }) =
      some { status := .healthy, timestamp := 3 } ∧
    decodeLiveness (encodeLiveness { alive := true, timestamp := 3 }) =
      some { alive := true, timestamp := 3 } ∧
    decodeReadiness (encodeReadiness
        { ready := false, timestamp := 3, checks := some [("db", "down")] }) =
      some { ready := false, timestamp := 3, checks := some [("db", "down")] } ∧
    decodeStatus (encodeStatus c5Resp) = some c5Resp ∧
    (encodeStatus c5Resp).getField "git_commit" = none ∧
    (encodeStatus c5Resp).getField "build_time" = none ∧
    (encodeStatus c5Resp).getField "hostname" = none ∧
    (encodeStatus c5Resp).getField "dependencies" = none ∧
    (encodeDependency { name := "redis", status := "healthy", version := "" }
      ).getField "version" = none := by
  have hc7 := c7_wire_roundtrip { status := .healthy, timestamp := 3 }
    { alive := true, timestamp := 3 }
    { ready := false, timestamp := 3, checks := some [("db", "down")] }
    c5Resp { name := "redis", status := "healthy", version := "" }
  exact ⟨hc7.1, hc7.2.1, hc7.2.2.1, hc7.2.2.2.1,
    hc7.2.2.2.2.1 rfl, hc7.2.2.2.2.2.1 rfl, hc7.2.2.2.2.2.2.1 rfl,
    hc7.2.2.2.2.2.2.2.1 rfl, hc7.2.2.2.2.2.2.2.2 rfl⟩

/-- C10: with no check provider, GetReadiness carries a non-nil empty
checks table, and its wire form holds a checks key whose value is the empty
object, not null and not omitted. -/
theorem c10_checks_empty_object (s : BaseServer) (ctx : Ctx) (now : Int)
    (h : s.CheckFunc = none) :
    ∃ r, s.GetReadiness ctx now = .ok r ∧ r.checks = some [] ∧
      (encodeReadiness r).getField "checks" = some (.obj []) ∧
      (encodeReadiness r).getField "checks" ≠ some Json.null := by
  rw [BaseServer.GetReadiness, h]
  refine ⟨{ ready := true, timestamp := now, checks := some [] },
    rfl, rfl, ?_, ?_⟩
  · rw [encodeReadiness_getField_checks]
    rfl
  · rw [encodeReadiness_getField_checks]
    simp [encodeChecks]

/-- C10 witness: the freshly constructed provider-free server at a concrete
instant. -/
theorem c10_witness :
    ∃ r, c4Server.GetReadiness () 9 = .ok r ∧ r.checks = some [] ∧
      (encodeReadiness r).getField "checks" = some (.obj []) ∧
      (encodeReadiness r).getField "checks" ≠ some Json.null :=
  c10_checks_empty_object c4Server () 9 rfl

end FablefordHealth
